import Mathlib

/-
  Verification of the ai-usage-badges repository: badge generation pipeline
  (slugifier, layout calculator, raster exporter) and the serverless badge
  usage counter (Vercel handler and Cloudflare Workers fetch).
  Definitions are shallow embeddings of the JavaScript sources; components
  that live only in scripts/generate_badges.py (absent from the source tree,
  documented in CLAUDE.md and the spec) are modelled from the spec and say so
  in their doc comments.
-/

namespace Badges

/-! ## Slugifier -/

/-- Modelled from the spec: scripts/generate_badges.py slugify is missing from
the source tree. Separator characters: per the spec the en dash, em dash,
bullet separator and slash are replaced with hyphens; the whitespace handling
is fixed by the end-to-end property of the spec (slug of the label
"Human–AI Co-Created" is "human-ai-co-created") and by the asset paths in the
README, which require a run of whitespace or separator punctuation to become
a single hyphen. -/
def sepChar (c : Char) : Bool :=
  c = ' ' || c = '–' || c = '—' || c = '•' || c = '/'

/-- Modelled from the spec: characters kept by slugify are the alphanumeric
characters and the hyphen; every remaining character is stripped. -/
def keepChar (c : Char) : Bool :=
  c.isAlphanum || c = '-'

/-- Modelled from the spec: replace each maximal run of separator characters
by a single hyphen. The boolean flag records whether the previous character
belonged to a separator run. -/
def collapseSeps : Bool → List Char → List Char
  | _, [] => []
  | inSep, c :: cs =>
    if sepChar c then
      if inSep then collapseSeps true cs
      else '-' :: collapseSeps true cs
    else c :: collapseSeps false cs

/-- Modelled from the spec: slugify replaces separator punctuation with
hyphens, strips any remaining character that is not alphanumeric or hyphen,
and lowercases the result. -/
def slugify (label : String) : String :=
  String.mk (((collapseSeps false label.data).filter keepChar).map Char.toLower)

/-- The nine fixed category labels, ordered by increasing AI involvement,
as listed in the README and in CLAUDE.md. -/
def BADGES : List String :=
  [ "Human Original"
  , "Human Original • AI Polished"
  , "Human Written • AI Reviewed"
  , "AI Suggested • Human Approved"
  , "Human Curated"
  , "Human–AI Co-Created"
  , "AI Drafted • Human Edited"
  , "AI Drafted"
  , "AI Generated" ]

/-- Output alphabet required of slugs: lowercase letters, digits, hyphen. -/
def slugChar (c : Char) : Bool :=
  c.isLower || c.isDigit || c = '-'

/-! ## Layout calculator

Design constants documented in CLAUDE.md (scripts/generate_badges.py itself
is missing from the source tree). -/

/-- Modelled from the spec: width of the gradient AI chip. -/
def LEFT_WIDTH : ℤ := 44

/-- Modelled from the spec: standard badge height at 1x. -/
def HEIGHT : ℤ := 20

/-- Modelled from the spec: corner radius. -/
def RADIUS : ℤ := 5

/-- Modelled from the spec: horizontal padding around the label text. -/
def PADDING : ℤ := 10

/-- Modelled from the spec: rough character width used for layout. -/
def CHAR_WIDTH : ℚ := 7

structure Layout where
  leftWidth : ℤ
  rightWidth : ℤ
  totalWidth : ℤ
  height : ℤ
deriving DecidableEq

/-- Modelled from the spec: computeLayout of scripts/generate_badges.py.
rightWidth is twice the padding plus the ceiling of the estimated text width,
totalWidth is the sum of the chip widths, height is the fixed 1x height. -/
def computeLayout (label : String) : Layout :=
  let rightWidth : ℤ := 2 * PADDING + ⌈CHAR_WIDTH * (label.length : ℚ)⌉
  { leftWidth := LEFT_WIDTH
  , rightWidth := rightWidth
  , totalWidth := LEFT_WIDTH + rightWidth
  , height := HEIGHT }

/-! ## Raster exporter: scripts/export_png.js (Node + sharp)

The JavaScript reads each SVG, then runs
sharp(svg, density 144).resize(height 20).png(compressionLevel 9,
adaptiveFiltering true) for 1x and the same with density 288 and height 40
for 2x. sharp is an external library; its resize-to-height semantics
(aspect ratio preserved, width rounded from the proportional value) is the
collaborator contract the spec states: width scales proportionally from the
total width of the SVG. -/

structure SvgDoc where
  width : ℕ
  height : ℕ
deriving DecidableEq

structure PngOptions where
  compressionLevel : ℕ
  adaptiveFiltering : Bool
deriving DecidableEq

structure RasterAsset where
  widthPx : ℕ
  heightPx : ℕ
  options : PngOptions
deriving DecidableEq

/-- One sharp pipeline invocation of export_png.js: rasterization density,
resize target height, and the PNG encoder options. -/
structure SharpInvocation where
  density : ℕ
  targetHeight : ℕ
  pngOptions : PngOptions
deriving DecidableEq

/-- The 1x pipeline of export_png.js: density 144, height 20, png with
compressionLevel 9 and adaptiveFiltering true. -/
def invocation1x : SharpInvocation := ⟨144, 20, ⟨9, true⟩⟩

/-- The 2x pipeline of export_png.js: density 288, height 40, png with
compressionLevel 9 and adaptiveFiltering true. -/
def invocation2x : SharpInvocation := ⟨288, 40, ⟨9, true⟩⟩

/-- sharp resize with a target height only: the output height is the target
and the width is the proportionally scaled width, rounded. -/
def resizeWidth (svg : SvgDoc) (targetH : ℕ) : ℕ :=
  (round (((svg.width * targetH : ℕ) : ℚ) / (svg.height : ℚ))).toNat

/-- Run one sharp pipeline on an SVG document. -/
def runSharp (inv : SharpInvocation) (svg : SvgDoc) : RasterAsset :=
  ⟨resizeWidth svg inv.targetHeight, inv.targetHeight, inv.pngOptions⟩

/-- The 1x export of export_png.js. -/
def export1x (svg : SvgDoc) : RasterAsset := runSharp invocation1x svg

/-- The 2x export of export_png.js. -/
def export2x (svg : SvgDoc) : RasterAsset := runSharp invocation2x svg

/-- Modelled from the spec: the root dimensions of the SVG produced by
build_svg of scripts/generate_badges.py (missing from the source tree) are
the totalWidth of the computed layout and the fixed 1x height. -/
def badgeSvgDoc (label : String) : SvgDoc :=
  ⟨(computeLayout label).totalWidth.toNat, HEIGHT.toNat⟩

/-! ## Raster exporter fallback: write_png of scripts/generate_badges.py -/

inductive RasterBackend
  | vector
  | procedural
deriving DecidableEq

structure RenderOutcome where
  backend : RasterBackend
  widthPx : ℕ
  heightPx : ℕ
  succeeded : Bool
deriving DecidableEq

/-- Modelled from the spec: write_png of scripts/generate_badges.py (missing
from the source tree) prefers the cairosvg vector rasterizer and, when it is
unavailable, falls back to the Pillow procedural renderer, which reconstructs
the same visible geometry at the same pixel dimensions; either way the run
succeeds. -/
def write_png (cairoAvailable : Bool) (svg : SvgDoc) (scale : ℕ) : RenderOutcome :=
  if cairoAvailable then
    ⟨RasterBackend.vector, svg.width * scale, svg.height * scale, true⟩
  else
    ⟨RasterBackend.procedural, svg.width * scale, svg.height * scale, true⟩

/-! ## Badge counter service: api/badge-count.js (Vercel) and the
Cloudflare Workers version

The response bodies are flat JSON objects over integers and strings, modelled
as association lists of primitive JSON values. Network effects are modelled
by passing the outcome of the awaited count fetch, and the current ISO8601
timestamp string produced by Date.toISOString, as arguments. -/

inductive JsonValue
  | num (n : ℤ)
  | str (s : String)
deriving DecidableEq

abbrev JsonObject := List (String × JsonValue)

structure HttpResponse where
  status : ℕ
  headers : List (String × String)
  body : Option JsonObject
deriving DecidableEq

/-- Cache duration constant of api/badge-count.js. -/
def CACHE_DURATION : ℤ := 300

/-- The headers set unconditionally at the top of the Vercel handler. -/
def corsHeaders : List (String × String) :=
  [ ("Access-Control-Allow-Origin", "*")
  , ("Access-Control-Allow-Methods", "GET")
  , ("Cache-Control", "public, s-maxage=" ++ toString CACHE_DURATION) ]

/-- The Vercel handler of api/badge-count.js. The headers are set before any
branching; OPTIONS requests get an empty 200; otherwise the awaited count
fetch either succeeds, giving the 200 JSON body of count, timestamp and
cached, or throws, and the catch block gives the 500 error body. The handler
is a total function: every exception of the fetch is absorbed into the
Except argument and answered with a response. -/
def handler (method : String) (fetchResult : Except String ℤ) (nowIso : String) :
    HttpResponse :=
  if method = "OPTIONS" then
    { status := 200, headers := corsHeaders, body := none }
  else
    match fetchResult with
    | Except.ok count =>
        { status := 200
        , headers := corsHeaders
        , body := some [ ("count", JsonValue.num count)
                       , ("timestamp", JsonValue.str nowIso)
                       , ("cached", JsonValue.num CACHE_DURATION) ] }
    | Except.error msg =>
        { status := 500
        , headers := corsHeaders
        , body := some [ ("error", JsonValue.str "Failed to fetch analytics data")
                       , ("message", JsonValue.str msg) ] }

/-- The headers object of the Cloudflare Workers fetch. -/
def workersHeaders : List (String × String) :=
  [ ("Access-Control-Allow-Origin", "*")
  , ("Access-Control-Allow-Methods", "GET, OPTIONS")
  , ("Content-Type", "application/json")
  , ("Cache-Control", "public, max-age=300") ]

/-- The Cloudflare Workers default-export fetch. Same shape as the Vercel
handler: OPTIONS gets an empty 200 with the shared headers, success gets the
200 JSON body of count, timestamp and cached 300, an exception gets the 500
error body. -/
def workersFetch (method : String) (fetchResult : Except String ℤ) (nowIso : String) :
    HttpResponse :=
  if method = "OPTIONS" then
    { status := 200, headers := workersHeaders, body := none }
  else
    match fetchResult with
    | Except.ok count =>
        { status := 200
        , headers := workersHeaders
        , body := some [ ("count", JsonValue.num count)
                       , ("timestamp", JsonValue.str nowIso)
                       , ("cached", JsonValue.num 300) ] }
    | Except.error msg =>
        { status := 500
        , headers := workersHeaders
        , body := some [ ("error", JsonValue.str "Failed to fetch analytics data")
                       , ("message", JsonValue.str msg) ] }

/-! ## fetchBadgeCountFromGA, Vercel and Cloudflare Workers versions -/

/-- The environment variables read by api/badge-count.js. -/
structure GAEnv where
  propertyId : Option String
  serviceAccountEmail : Option String
  privateKey : Option String
deriving DecidableEq

/-- The report query both versions POST to the Analytics Data API. -/
structure ReportQuery where
  url : String
  startDate : String
  endDate : String
  metric : String
  filterField : String
  filterValues : List String
deriving DecidableEq

/-- The query built by the Vercel fetchBadgeCountFromGA: runReport URL for
the property, date range 2024-01-01 to today, metric eventCount, dimension
filter on eventName in code_copied, image_copied. -/
def gaQueryVercel (propertyId : String) : ReportQuery :=
  { url := "https://analyticsdata.googleapis.com/v1beta/properties/"
             ++ propertyId ++ ":runReport"
  , startDate := "2024-01-01"
  , endDate := "today"
  , metric := "eventCount"
  , filterField := "eventName"
  , filterValues := ["code_copied", "image_copied"] }

/-- The query built inline by the Cloudflare Workers fetchBadgeCountFromGA:
runReport URL for the property, date range 2024-01-01 to today, metric
eventCount, dimension filter on eventName in code_copied, image_copied. -/
def gaQueryWorkers (propertyId : String) : ReportQuery :=
  { url := "https://analyticsdata.googleapis.com/v1beta/properties/"
             ++ propertyId ++ ":runReport"
  , startDate := "2024-01-01"
  , endDate := "today"
  , metric := "eventCount"
  , filterField := "eventName"
  , filterValues := ["code_copied", "image_copied"] }

/-- A JavaScript number as produced by parseInt: either an integer or NaN. -/
inductive JsValue
  | nan
  | int (n : ℤ)
deriving DecidableEq

/-- Accumulate a run of decimal digits, most significant first. -/
def parseDigits (cs : List Char) : ℕ :=
  cs.foldl (fun acc c => acc * 10 + (c.toNat - 48)) 0

/-- JavaScript parseInt with radix 10: skip leading whitespace, read an
optional sign and then the maximal run of decimal digits; NaN when that run
is empty. -/
def jsParseInt10 (s : String) : JsValue :=
  let cs := s.data.dropWhile Char.isWhitespace
  let signAndRest : Bool × List Char :=
    match cs with
    | '-' :: rest => (true, rest)
    | '+' :: rest => (false, rest)
    | rest => (false, rest)
  let ds := signAndRest.2.takeWhile Char.isDigit
  if ds.isEmpty then JsValue.nan
  else if signAndRest.1 then JsValue.int (-(parseDigits ds : ℤ))
  else JsValue.int (parseDigits ds)

/-- One metric value cell of a GA report row. -/
structure MetricValue where
  value : String
deriving DecidableEq

/-- One GA report row. -/
structure GARow where
  metricValues : List MetricValue
deriving DecidableEq

/-- The parsed JSON body of the Analytics Data API response; rows is absent
or a list. -/
structure GAReport where
  rows : Option (List GARow)
deriving DecidableEq

/-- The HTTP response of the Analytics Data API call: ok flag, status code,
body text (used by the Vercel error message) and the parsed report. -/
structure GAHttpResponse where
  ok : Bool
  status : ℕ
  bodyText : String
  report : GAReport
deriving DecidableEq

/-- The Vercel fetchBadgeCountFromGA after the token exchange: throws when an
environment variable is missing, throws with status and body text when the
API response is not ok, otherwise parses the first metric value of the first
row, or returns 0 when rows is absent or empty. Accessing metricValues of an
empty row list in JavaScript throws a TypeError. -/
def fetchBadgeCountFromGA_vercel (env : GAEnv) (resp : GAHttpResponse) :
    Except String JsValue :=
  if env.propertyId.isNone || env.serviceAccountEmail.isNone || env.privateKey.isNone then
    Except.error "Missing required environment variables for Google Analytics API"
  else if !resp.ok then
    Except.error ("GA API error: " ++ toString resp.status ++ " - " ++ resp.bodyText)
  else
    match resp.report.rows with
    | some (r0 :: _) =>
        match r0.metricValues with
        | mv0 :: _ => Except.ok (jsParseInt10 mv0.value)
        | [] => Except.error "TypeError"
    | _ => Except.ok (JsValue.int 0)

/-- The Cloudflare Workers fetchBadgeCountFromGA: no environment validation,
throws with status only when the API response is not ok, otherwise parses the
first metric value of the first row, or returns 0 when rows is absent or
empty. -/
def fetchBadgeCountFromGA_workers (resp : GAHttpResponse) :
    Except String JsValue :=
  if !resp.ok then
    Except.error ("GA API error: " ++ toString resp.status)
  else
    match resp.report.rows with
    | some (r0 :: _) =>
        match r0.metricValues with
        | mv0 :: _ => Except.ok (jsParseInt10 mv0.value)
        | [] => Except.error "TypeError"
    | _ => Except.ok (JsValue.int 0)

/-! ## Helper lemmas -/

lemma ceil_charWidth (n : ℕ) : ⌈CHAR_WIDTH * (n : ℚ)⌉ = 7 * (n : ℤ) := by
  have h : CHAR_WIDTH * (n : ℚ) = ((7 * (n : ℤ) : ℤ) : ℚ) := by
    unfold CHAR_WIDTH
    push_cast
    ring
  rw [h, Int.ceil_intCast]

lemma computeLayout_rightWidth (label : String) :
    (computeLayout label).rightWidth = 20 + 7 * (label.length : ℤ) := by
  show 2 * PADDING + ⌈CHAR_WIDTH * (label.length : ℚ)⌉ = _
  rw [ceil_charWidth]
  norm_num [PADDING]

lemma computeLayout_totalWidth (label : String) :
    (computeLayout label).totalWidth = 64 + 7 * (label.length : ℤ) := by
  show LEFT_WIDTH + (2 * PADDING + ⌈CHAR_WIDTH * (label.length : ℚ)⌉) = _
  rw [ceil_charWidth]
  norm_num [LEFT_WIDTH, PADDING]
  ring

lemma resizeWidth_badge_1x (w : ℕ) : resizeWidth ⟨w, 20⟩ 20 = w := by
  unfold resizeWidth
  have h : (((w * 20 : ℕ) : ℚ) / ((20 : ℕ) : ℚ)) = ((w : ℕ) : ℚ) := by
    push_cast
    field_simp
  rw [h, round_natCast, Int.toNat_natCast]

lemma resizeWidth_badge_2x (w : ℕ) : resizeWidth ⟨w, 20⟩ 40 = 2 * w := by
  unfold resizeWidth
  have h : (((w * 40 : ℕ) : ℚ) / ((20 : ℕ) : ℚ)) = ((2 * w : ℕ) : ℚ) := by
    push_cast
    field_simp
    ring
  rw [h, round_natCast, Int.toNat_natCast]

/-! ## Claim theorems -/

/-- Claim C1: for every badge SVG processed by the raster exporter, the 1x
export produces a PNG whose pixel height is exactly 20 and the 2x export a
PNG whose pixel height is exactly 40, with the width scaled proportionally
from the totalWidth of the SVG: at 1x the width equals the totalWidth of the
layout, at 2x it is twice the totalWidth. The height conjuncts hold for every
input SVG, whatever its dimensions. -/
theorem C1_export_png_dimensions (label : String) (svg : SvgDoc) :
    (export1x svg).heightPx = 20 ∧
    (export2x svg).heightPx = 40 ∧
    (export1x (badgeSvgDoc label)).widthPx = (computeLayout label).totalWidth.toNat ∧
    (export2x (badgeSvgDoc label)).widthPx = 2 * (computeLayout label).totalWidth.toNat := by
  refine ⟨rfl, rfl, ?_, ?_⟩
  · exact resizeWidth_badge_1x ((computeLayout label).totalWidth.toNat)
  · exact resizeWidth_badge_2x ((computeLayout label).totalWidth.toNat)

/-- Claim C2: when the vector-rasterizer backend is unavailable, the raster
exporter of scripts/generate_badges.py falls back to the procedural renderer,
the run still succeeds, and the fallback output has the same pixel geometry
as the vector output; when the vector rasterizer is available the exporter
uses it. Modelled from the spec, as generate_badges.py is missing from the
source tree. -/
theorem C2_fallback_renderer (svg : SvgDoc) (scale : ℕ) :
    (write_png false svg scale).succeeded = true ∧
    (write_png false svg scale).backend = RasterBackend.procedural ∧
    (write_png false svg scale).widthPx = (write_png true svg scale).widthPx ∧
    (write_png false svg scale).heightPx = (write_png true svg scale).heightPx ∧
    (write_png true svg scale).backend = RasterBackend.vector ∧
    (write_png true svg scale).succeeded = true :=
  ⟨rfl, rfl, rfl, rfl, rfl, rfl⟩

/-- Claim C3: slugify replaces en dash, em dash, bullet separator and slash
with hyphens, strips every remaining character that is not alphanumeric or a
hyphen, and lowercases the result; on the nine fixed category labels it
yields pairwise-distinct outputs made only of lowercase letters, digits and
hyphens, and the label Human–AI Co-Created maps to human-ai-co-created. -/
theorem C3_slugify_properties :
    slugify "a–b" = "a-b" ∧ slugify "a—b" = "a-b" ∧ slugify "a•b" = "a-b" ∧
    slugify "a/b" = "a-b" ∧ slugify "a(b)!" = "ab" ∧ slugify "A_B" = "ab" ∧
    BADGES.map slugify =
      [ "human-original", "human-original-ai-polished", "human-written-ai-reviewed"
      , "ai-suggested-human-approved", "human-curated", "human-ai-co-created"
      , "ai-drafted-human-edited", "ai-drafted", "ai-generated" ] ∧
    (BADGES.map slugify).Nodup ∧
    ((BADGES.map slugify).all fun s => s.data.all slugChar) = true ∧
    slugify "Human–AI Co-Created" = "human-ai-co-created" := by
  decide

/-- Claim C4: with the documented constants, computeLayout satisfies
rightWidth = 2 * padding + ceil(charWidth * length) and
totalWidth = leftWidth + rightWidth for every label, and
computeLayout applied to the label AI Generated has totalWidth
44 + 2 * 10 + ceil(7.0 * 12) = 148. -/
theorem C4_computeLayout_formula (label : String) :
    (computeLayout label).leftWidth = LEFT_WIDTH ∧
    (computeLayout label).rightWidth = 2 * PADDING + ⌈CHAR_WIDTH * (label.length : ℚ)⌉ ∧
    (computeLayout label).totalWidth =
      (computeLayout label).leftWidth + (computeLayout label).rightWidth ∧
    (computeLayout "AI Generated").totalWidth = 44 + 2 * 10 + ⌈(7 : ℚ) * 12⌉ ∧
    (computeLayout "AI Generated").totalWidth = 148 := by
  have h148 : (computeLayout "AI Generated").totalWidth = 148 := by
    rw [computeLayout_totalWidth]
    norm_num [show ("AI Generated" : String).length = 12 from rfl]
  refine ⟨rfl, rfl, rfl, ?_, h148⟩
  rw [h148, show ((7 : ℚ) * 12) = ((84 : ℤ) : ℚ) by norm_num, Int.ceil_intCast]
  norm_num

/-- Claim C6: the zero-length label yields the empty slug and
rightWidth = 2 * padding, and for every label the layout has strictly
positive totalWidth and height and no negative width. The definition of
computeLayout contains no division, so no division by zero can occur. -/
theorem C6_layout_safety :
    slugify "" = "" ∧
    (computeLayout "").rightWidth = 2 * PADDING ∧
    ∀ label : String,
      0 < (computeLayout label).totalWidth ∧
      0 ≤ (computeLayout label).leftWidth ∧
      0 ≤ (computeLayout label).rightWidth ∧
      0 < (computeLayout label).height := by
  refine ⟨by decide, ?_, ?_⟩
  · rw [computeLayout_rightWidth]
    norm_num [PADDING, show ("" : String).length = 0 from rfl]
  · intro label
    have ht := computeLayout_totalWidth label
    have hr := computeLayout_rightWidth label
    refine ⟨?_, ?_, ?_, ?_⟩
    · rw [ht]; positivity
    · show (0 : ℤ) ≤ LEFT_WIDTH
      norm_num [LEFT_WIDTH]
    · rw [hr]; positivity
    · show (0 : ℤ) < HEIGHT
      norm_num [HEIGHT]

/-- Claim C7: every PNG written by export_png.js, at both scales, is encoded
with the sharp PNG encoder at compressionLevel 9, the maximum zlib
compression level, and with adaptiveFiltering enabled; PNG is a lossless
format, so the outputs are lossless-compressed rasters at maximum
compression with adaptive filtering. -/
theorem C7_png_encoding_options (svg : SvgDoc) :
    (export1x svg).options.compressionLevel = 9 ∧
    (export1x svg).options.adaptiveFiltering = true ∧
    (export2x svg).options.compressionLevel = 9 ∧
    (export2x svg).options.adaptiveFiltering = true ∧
    invocation1x.pngOptions = invocation2x.pngOptions :=
  ⟨rfl, rfl, rfl, rfl, rfl⟩

/-- Claim C5: for every successful request, both the Vercel handler and the
Cloudflare Workers fetch respond with status 200 and a JSON object of
exactly the fields count, timestamp and cached, where count is the fetched
integer, timestamp is the ISO8601 string produced by Date.toISOString, and
cached is the integer number of seconds 300. -/
theorem C5_success_response_shape (method : String) (count : ℤ) (nowIso : String)
    (hm : method ≠ "OPTIONS") :
    handler method (Except.ok count) nowIso =
      { status := 200
      , headers := corsHeaders
      , body := some [ ("count", JsonValue.num count)
                     , ("timestamp", JsonValue.str nowIso)
                     , ("cached", JsonValue.num 300) ] } ∧
    workersFetch method (Except.ok count) nowIso =
      { status := 200
      , headers := workersHeaders
      , body := some [ ("count", JsonValue.num count)
                     , ("timestamp", JsonValue.str nowIso)
                     , ("cached", JsonValue.num 300) ] } := by
  unfold handler workersFetch
  rw [if_neg hm, if_neg hm]
  exact ⟨rfl, rfl⟩

/-- Witness for C5 at the concrete request method GET, count 12345 and a
concrete ISO8601 timestamp. -/
theorem C5_success_response_shape_witness :
    ("GET" : String) ≠ "OPTIONS" ∧
    handler "GET" (Except.ok 12345) "2024-01-31T12:00:00.000Z" =
      { status := 200
      , headers := corsHeaders
      , body := some [ ("count", JsonValue.num 12345)
                     , ("timestamp", JsonValue.str "2024-01-31T12:00:00.000Z")
                     , ("cached", JsonValue.num 300) ] } :=
  ⟨by decide,
   (C5_success_response_shape "GET" 12345 "2024-01-31T12:00:00.000Z" (by decide)).1⟩

/-- Claim C8: the handler is a total function into responses, so no
exception escapes it; every response of the Vercel handler carries the CORS
and cache-control headers, including the OPTIONS response and the error
response; every exception of the count fetch becomes a 500 response with
the body of error and message; and the fetch itself throws on a missing
environment variable and on a non-OK Analytics API response, feeding that
error path. -/
theorem C8_error_handling (method : String) (fetchResult : Except String ℤ)
    (nowIso : String) :
    (handler method fetchResult nowIso).headers = corsHeaders ∧
    (workersFetch method fetchResult nowIso).headers = workersHeaders ∧
    handler "OPTIONS" fetchResult nowIso =
      { status := 200, headers := corsHeaders, body := none } ∧
    (∀ msg, fetchResult = Except.error msg → method ≠ "OPTIONS" →
      handler method fetchResult nowIso =
        { status := 500
        , headers := corsHeaders
        , body := some [ ("error", JsonValue.str "Failed to fetch analytics data")
                       , ("message", JsonValue.str msg) ] } ∧
      workersFetch method fetchResult nowIso =
        { status := 500
        , headers := workersHeaders
        , body := some [ ("error", JsonValue.str "Failed to fetch analytics data")
                       , ("message", JsonValue.str msg) ] }) ∧
    (∀ resp, fetchBadgeCountFromGA_vercel ⟨none, none, none⟩ resp =
      Except.error "Missing required environment variables for Google Analytics API") ∧
    (∀ pid em key resp, resp.ok = false →
      fetchBadgeCountFromGA_vercel ⟨some pid, some em, some key⟩ resp =
        Except.error ("GA API error: " ++ toString resp.status ++ " - " ++ resp.bodyText)) := by
  refine ⟨?_, ?_, rfl, ?_, ?_, ?_⟩
  · unfold handler
    split
    · rfl
    · cases fetchResult <;> rfl
  · unfold workersFetch
    split
    · rfl
    · cases fetchResult <;> rfl
  · intro msg hmsg hm
    subst hmsg
    unfold handler workersFetch
    rw [if_neg hm, if_neg hm]
    exact ⟨rfl, rfl⟩
  · intro resp
    rfl
  · intro pid em key resp hok
    unfold fetchBadgeCountFromGA_vercel
    simp [hok]

/-- Witness for C8 at concrete inputs: a thrown fetch error becomes the 500
error response, and a non-OK Analytics response makes the Vercel fetch
throw with the status and body text in the message. -/
theorem C8_error_handling_witness :
    (handler "GET" (Except.error "boom") "2024-01-31T12:00:00.000Z" =
      { status := 500
      , headers := corsHeaders
      , body := some [ ("error", JsonValue.str "Failed to fetch analytics data")
                     , ("message", JsonValue.str "boom") ] }) ∧
    fetchBadgeCountFromGA_vercel ⟨some "p", some "e", some "k"⟩
        ⟨false, 403, "denied", ⟨none⟩⟩ =
      Except.error "GA API error: 403 - denied" :=
  ⟨((C8_error_handling "GET" (Except.error "boom") "2024-01-31T12:00:00.000Z").2.2.2.1
      "boom" rfl (by decide)).1,
   (C8_error_handling "GET" (Except.error "boom") "2024-01-31T12:00:00.000Z").2.2.2.2.2
      "p" "e" "k" ⟨false, 403, "denied", ⟨none⟩⟩ rfl⟩

/-- Claim C9: when the Analytics report response is OK but carries no rows,
absent or empty, both versions of fetchBadgeCountFromGA return 0 rather
than throwing. -/
theorem C9_empty_rows_zero (pid em key : String) (resp : GAHttpResponse)
    (hok : resp.ok = true)
    (hrows : resp.report.rows = none ∨ resp.report.rows = some []) :
    fetchBadgeCountFromGA_vercel ⟨some pid, some em, some key⟩ resp =
      Except.ok (JsValue.int 0) ∧
    fetchBadgeCountFromGA_workers resp = Except.ok (JsValue.int 0) := by
  unfold fetchBadgeCountFromGA_vercel fetchBadgeCountFromGA_workers
  cases hrows with
  | inl h => simp [hok, h]
  | inr h => simp [hok, h]

/-- Witness for C9 at a concrete OK response whose report has no rows
field. -/
theorem C9_empty_rows_zero_witness :
    fetchBadgeCountFromGA_vercel ⟨some "p", some "e", some "k"⟩
        ⟨true, 200, "", ⟨none⟩⟩ =
      Except.ok (JsValue.int 0) ∧
    fetchBadgeCountFromGA_workers ⟨true, 200, "", ⟨none⟩⟩ =
      Except.ok (JsValue.int 0) :=
  C9_empty_rows_zero "p" "e" "k" ⟨true, 200, "", ⟨none⟩⟩ rfl (Or.inl rfl)

/-- Claim C10: the Vercel and Cloudflare Workers versions of
fetchBadgeCountFromGA are equivalent: for the same GA property id both
construct the same report query, with date range 2024-01-01 to today,
metric eventCount and a filter on the event names code_copied and
image_copied, and on the same OK Analytics response, with the environment
variables present, both return the same count. -/
theorem C10_vercel_workers_equiv (propertyId pid em key : String)
    (resp : GAHttpResponse) (hok : resp.ok = true) :
    gaQueryVercel propertyId = gaQueryWorkers propertyId ∧
    fetchBadgeCountFromGA_vercel ⟨some pid, some em, some key⟩ resp =
      fetchBadgeCountFromGA_workers resp := by
  refine ⟨rfl, ?_⟩
  unfold fetchBadgeCountFromGA_vercel fetchBadgeCountFromGA_workers
  simp [hok]

/-- Witness for C10 at the concrete property id 123456789 and an OK response
with one row whose metric value is 42. -/
theorem C10_vercel_workers_equiv_witness :
    gaQueryVercel "123456789" = gaQueryWorkers "123456789" ∧
    fetchBadgeCountFromGA_vercel ⟨some "p", some "e", some "k"⟩
        ⟨true, 200, "", ⟨some [⟨[⟨"42"⟩]⟩]⟩⟩ =
      fetchBadgeCountFromGA_workers ⟨true, 200, "", ⟨some [⟨[⟨"42"⟩]⟩]⟩⟩ :=
  C10_vercel_workers_equiv "123456789" "p" "e" "k"
    ⟨true, 200, "", ⟨some [⟨[⟨"42"⟩]⟩]⟩⟩ rfl

end Badges
